import Mathlib

/-!
Verification of the EgressIP OVN rule analyzer
(src/tools/egressip/egressip_ovn_rule_analyzer.py and
src/tools/egressip/egressip_metrics_collector.py).

The Python code is shallowly embedded: each Python function that a claim
touches becomes a Lean definition over explicit data.  Python dictionaries
become structures, Python sets of strings become Finset String, Python
float arithmetic is modelled by exact rational arithmetic over Rat, and
Python string splitting / regular-expression matching is implemented
directly over List Char following the semantics of the patterns used in
the source (the only patterns are the IPv4-literal patterns
d(1,3).d(1,3).d(1,3).d(1,3), with and without word boundaries).
-/

namespace EgressIP

/-! ## Python string primitives

All primitives are implemented by structural recursion over List Char so
that every definition evaluates inside the kernel (core String.trim,
String.split and String.toLower use well-founded recursion over byte
positions and do not). -/

def notWsChar (c : Char) : Bool := !c.isWhitespace

def dropWsChars (l : List Char) : List Char := l.dropWhile Char.isWhitespace

/-- Python str.strip() over the character list: whitespace removed from
both ends. -/
def trimChars (cs : List Char) : List Char :=
  dropWsChars (dropWsChars cs.reverse).reverse

/-- Accumulator pass of Python str.split() with no arguments. -/
def splitWsAcc : List Char → List Char → List String
  | [], acc => if acc = [] then [] else [String.mk acc.reverse]
  | c :: rest, acc =>
    if c.isWhitespace then
      if acc = [] then splitWsAcc rest [] else String.mk acc.reverse :: splitWsAcc rest []
    else splitWsAcc rest (c :: acc)

/-- Python str.split() with no arguments: split on whitespace runs,
dropping empty fragments.  Used by _parse_egressip_snat_rule via
rule_line.strip().split(). -/
def pySplitWs (s : String) : List String := splitWsAcc s.data []

/-- Python str.split(None, 2) on an already stripped string: at most two
splits, the remainder (with its internal whitespace) is the third element.
Used by _parse_egressip_lrp_rule via rule_line.strip().split(None, 2). -/
def pySplitWsMax2 (s : String) : List String :=
  let cs := trimChars s.data
  if cs = [] then []
  else
    let r1 := dropWsChars (cs.dropWhile notWsChar)
    if r1 = [] then [String.mk (cs.takeWhile notWsChar)]
    else
      let r2 := dropWsChars (r1.dropWhile notWsChar)
      if r2 = [] then
        [String.mk (cs.takeWhile notWsChar), String.mk (r1.takeWhile notWsChar)]
      else
        [String.mk (cs.takeWhile notWsChar), String.mk (r1.takeWhile notWsChar), String.mk r2]

/-- Python str.lower() (ASCII case mapping, which covers every character
the analyzer compares). -/
def pyLower (s : String) : String := String.mk (s.data.map Char.toLower)

/-- Python int(s) on a string: strip surrounding whitespace, optional sign,
then decimal digits; None models a raised ValueError.  (Underscore digit
separators accepted by CPython are not modelled; no input in this
development uses them.) -/
def pyParseInt (s : String) : Option Int :=
  let cs := trimChars s.data
  let signed : Bool × List Char :=
    match cs with
    | '-' :: r => (true, r)
    | '+' :: r => (false, r)
    | r => (false, r)
  let ds := signed.2
  if ds ≠ [] ∧ ds.all Char.isDigit then
    let n : Nat := ds.foldl (fun a c => a * 10 + (c.toNat - 48)) 0
    some (if signed.1 then -(n : Int) else (n : Int))
  else none

/-! ## IPv4-literal regular expressions

The analyzer uses two patterns over rule text:
re.search with d(1,3).d(1,3).d(1,3).d(1,3) (no boundaries, used by the
relevance heuristics) and re.findall with the same pattern wrapped in word
boundaries (used by the consistency check).  Both are implemented below
with the exact greedy-with-backtracking semantics of the patterns: a run
of k consecutive digits can only satisfy d(1,3) followed by a dot when
1 <= k <= 3 and the character after the run is the dot, because
backtracking to fewer digits leaves a digit where the dot is required. -/

def isWordChar (c : Char) : Bool := c.isAlphanum || c == '_'

def isWordCharOpt : Option Char → Bool
  | some c => isWordChar c
  | none => false

def digitRun (cs : List Char) : Nat := (cs.takeWhile Char.isDigit).length

/-- Match d(1,3) followed by a literal dot at the head of cs; returns the
number of consumed characters. -/
def octetDotLen (cs : List Char) : Option Nat :=
  let r := digitRun cs
  if 1 ≤ r ∧ r ≤ 3 ∧ (cs.drop r).head? = some '.' then some (r + 1) else none

/-- Match the full bounded pattern (three octet-dot groups, then d(1,3)
followed by a word boundary) at the head of cs. -/
def ipv4BoundedMatchLen (cs : List Char) : Option Nat :=
  match octetDotLen cs with
  | none => none
  | some a =>
    match octetDotLen (cs.drop a) with
    | none => none
    | some b =>
      match octetDotLen (cs.drop (a + b)) with
      | none => none
      | some c =>
        let rest := cs.drop (a + b + c)
        let r := digitRun rest
        if 1 ≤ r ∧ r ≤ 3 ∧ !(isWordCharOpt (rest.drop r).head?) then
          some (a + b + c + r)
        else none

/-- Match the unbounded pattern (used by re.search in the relevance
heuristics) at the head of cs. -/
def ipv4LooseMatch (cs : List Char) : Bool :=
  match octetDotLen cs with
  | none => false
  | some a =>
    match octetDotLen (cs.drop a) with
    | none => false
    | some b =>
      match octetDotLen (cs.drop (a + b)) with
      | none => false
      | some c => 1 ≤ digitRun (cs.drop (a + b + c))

def looseSearchGo : List Char → Bool
  | [] => false
  | c :: rest => ipv4LooseMatch (c :: rest) || looseSearchGo rest

/-- Python re.search of the unbounded IPv4 pattern: does any suffix match. -/
def hasIPv4Loose (s : String) : Bool := looseSearchGo s.toList

/-- Scanning loop of re.findall for the bounded IPv4 pattern.  The Bool
argument records whether the previous character was a word character
(deciding the leading word boundary); after a failed attempt the scan
advances one character, after a match it resumes at the match end. -/
def findallGo : Nat → Bool → List Char → List String
  | 0, _, _ => []
  | _ + 1, _, [] => []
  | fuel + 1, prevWord, c :: rest =>
    if prevWord = false ∧ c.isDigit then
      match ipv4BoundedMatchLen (c :: rest) with
      | some n => String.mk ((c :: rest).take n) :: findallGo fuel true ((c :: rest).drop n)
      | none => findallGo fuel (isWordChar c) rest
    else findallGo fuel (isWordChar c) rest

/-- Python re.findall of the word-boundary-delimited IPv4 pattern over a
string, in scan order. -/
def findallIPv4 (s : String) : List String :=
  findallGo (s.toList.length + 1) false s.toList

/-! ## Parsed rule records (RuleParser) -/

/-- Record produced by _parse_egressip_snat_rule.  A missing dictionary key
of the failure record is modelled by the empty string, which has the same
truthiness as Python None in every use the analyzer makes of these
fields. -/
structure SnatRule where
  type : String
  external_ip : String
  logical_ip : String
  logical_port : String
  raw_rule : String
  parsed_successfully : Bool
  egressip_related : Bool
  deriving DecidableEq, Repr

structure LrpRule where
  type : String
  priority : String
  matchField : String
  action : String
  raw_rule : String
  parsed_successfully : Bool
  egressip_related : Bool
  deriving DecidableEq, Repr

/-- Python substring membership test (sub in s). -/
def strContains (s sub : String) : Bool := decide (sub.toList <:+: s.toList)

/-- _is_egressip_related_snat: keyword heuristics or a loose IPv4 literal. -/
def isEgressipRelatedSnat (ruleLine : String) : Bool :=
  let lower := pyLower ruleLine
  strContains lower "egressip"
    || (strContains lower "egress" && strContains lower "ip")
    || hasIPv4Loose ruleLine

/-- _is_egressip_related_lrp: as the SNAT heuristic plus the reroute keyword. -/
def isEgressipRelatedLrp (ruleLine : String) : Bool :=
  let lower := pyLower ruleLine
  strContains lower "egressip"
    || (strContains lower "egress" && strContains lower "ip")
    || strContains lower "reroute"
    || hasIPv4Loose ruleLine

/-- _parse_egressip_snat_rule: requires at least 4 whitespace tokens with
the first equal to snat case-insensitively; otherwise the failure record
preserving the raw line.  The function body cannot raise, so the Python
try/except around it is dead and the embedding is total. -/
def parseEgressipSnatRule (ruleLine : String) : SnatRule :=
  let parts := pySplitWs ruleLine
  if 4 ≤ parts.length ∧ pyLower (parts.headD "") = "snat" then
    { type := "snat"
      external_ip := parts.getD 1 ""
      logical_ip := parts.getD 2 ""
      logical_port := parts.getD 3 ""
      raw_rule := ruleLine
      parsed_successfully := true
      egressip_related := isEgressipRelatedSnat ruleLine }
  else
    { type := "snat"
      external_ip := ""
      logical_ip := ""
      logical_port := ""
      raw_rule := ruleLine
      parsed_successfully := false
      egressip_related := false }

/-- _parse_egressip_lrp_rule: requires at least 3 segments from
split(None, 2); the priority segment is stored as raw text with no
integer check at parse time. -/
def parseEgressipLrpRule (ruleLine : String) : LrpRule :=
  let parts := pySplitWsMax2 ruleLine
  if 3 ≤ parts.length then
    { type := "lrp"
      priority := parts.getD 0 ""
      matchField := parts.getD 1 ""
      action := parts.getD 2 ""
      raw_rule := ruleLine
      parsed_successfully := true
      egressip_related := isEgressipRelatedLrp ruleLine }
  else
    { type := "lrp"
      priority := ""
      matchField := ""
      action := ""
      raw_rule := ruleLine
      parsed_successfully := false
      egressip_related := false }

/-! ## SNAT / LRP analysis (ConsistencyValidator inputs) -/

/-- The external_ips set built by _analyze_egressip_snat_rules: external
IPs of successfully parsed rules with a truthy external_ip field.  Note
that this set is NOT filtered by the egressip_related flag. -/
def analyzeSnatExternalIps (rules : List SnatRule) : Finset String :=
  ((rules.filter (fun r => r.parsed_successfully && !(r.external_ip == ""))).map
    (fun r => r.external_ip)).toFinset

/-- Result record of _analyze_egressip_lrp_rules (priority_stats omitted
fields are carried as a triple of min, max and unique count). -/
structure LrpAnalysis where
  total_rules : Nat
  parsed_count : Nat
  egressip_related_count : Nat
  priorities : List Int
  action_types : List (String × Nat)
  potential_issues : List String
  deriving DecidableEq, Repr

/-- Python dict.get(action, 0) + 1 update on the action_types dictionary,
as an association list in insertion order. -/
def bumpAction : List (String × Nat) → String → List (String × Nat)
  | [], a => [(a, 1)]
  | (k, v) :: rest, a => if k = a then (k, v + 1) :: rest else (k, v) :: bumpAction rest a

/-- First whitespace token of the action text (the analyzer only calls
this on non-empty action strings produced by the parser, whose head is a
non-whitespace character). -/
def firstActionWord (s : String) : String := (pySplitWs s).headD "unknown"

/-- Priority handling of one parsed rule inside
_analyze_egressip_lrp_rules. -/
def lrpPriorityStep (a : LrpAnalysis) (r : LrpRule) : LrpAnalysis :=
  if r.priority ≠ "" then
    match pyParseInt r.priority with
    | some n => { a with priorities := a.priorities ++ [n] }
    | none =>
      { a with potential_issues := a.potential_issues ++ ["Invalid priority: " ++ r.priority] }
  else a

/-- Action-type accounting of one parsed rule inside
_analyze_egressip_lrp_rules. -/
def lrpActionStep (a : LrpAnalysis) (r : LrpRule) : LrpAnalysis :=
  if r.action ≠ "" then
    { a with action_types := bumpAction a.action_types (firstActionWord r.action) }
  else a

/-- Per-rule step of the loop in _analyze_egressip_lrp_rules. -/
def lrpAnalysisStep (a : LrpAnalysis) (r : LrpRule) : LrpAnalysis :=
  if r.parsed_successfully then lrpActionStep (lrpPriorityStep a r) r
  else { a with potential_issues := a.potential_issues ++ ["Failed to parse rule: " ++ r.raw_rule] }

/-- _analyze_egressip_lrp_rules over a list of parsed rule records. -/
def analyzeEgressipLrpRules (rules : List LrpRule) : LrpAnalysis :=
  rules.foldl lrpAnalysisStep
    { total_rules := rules.length
      parsed_count := rules.countP (fun r => r.parsed_successfully)
      egressip_related_count := rules.countP (fun r => r.egressip_related)
      priorities := []
      action_types := []
      potential_issues := [] }

/-! ## Rule consistency check (ConsistencyValidator) -/

/-- The set A of _check_egressip_rule_consistency: external IPs of
successfully parsed, egressip-related SNAT rules with a truthy
external_ip field. -/
def snatRelevantExternalIps (rules : List SnatRule) : Finset String :=
  ((rules.filter
      (fun r => r.parsed_successfully && !(r.external_ip == "") && r.egressip_related)).map
    (fun r => r.external_ip)).toFinset

/-- The set B of _check_egressip_rule_consistency: IPv4 literals found by
re.findall over "match action" of successfully parsed, egressip-related
LRP rules. -/
def lrpIpReferences (rules : List LrpRule) : Finset String :=
  rules.foldl
    (fun acc r =>
      if r.parsed_successfully && r.egressip_related then
        acc ∪ (findallIPv4 (r.matchField ++ " " ++ r.action)).toFinset
      else acc)
    ∅

/-- Result record of _check_egressip_rule_consistency.  The Python dict
always carries a float consistency_score (initialised to 0.0); floats are
modelled by exact rationals. -/
structure ConsistencyCheck where
  snat_lrp_correlation : String
  issues_found : List String
  consistency_score : ℚ
  snat_external_ips : Finset String
  lrp_ip_references : Finset String
  correlated_ips : Finset String
  deriving DecidableEq

/-- _check_egressip_rule_consistency.  The embedded body cannot raise, so
the except branch of the source is dead. -/
def checkEgressipRuleConsistency (snatRules : List SnatRule) (lrpRules : List LrpRule) :
    ConsistencyCheck :=
  let a := snatRelevantExternalIps snatRules
  let b := lrpIpReferences lrpRules
  let inter := a ∩ b
  if a.Nonempty ∧ b.Nonempty then
    let score : ℚ := (inter.card : ℚ) / (a.card : ℚ)
    if score > 4 / 5 then
      { snat_lrp_correlation := "good", issues_found := [], consistency_score := score
        snat_external_ips := a, lrp_ip_references := b, correlated_ips := inter }
    else if score > 1 / 2 then
      { snat_lrp_correlation := "moderate", issues_found := [], consistency_score := score
        snat_external_ips := a, lrp_ip_references := b, correlated_ips := inter }
    else
      { snat_lrp_correlation := "poor"
        issues_found := ["Low correlation between EgressIP SNAT and LRP rules"]
        consistency_score := score
        snat_external_ips := a, lrp_ip_references := b, correlated_ips := inter }
  else
    { snat_lrp_correlation := "unknown", issues_found := [], consistency_score := 0
      snat_external_ips := a, lrp_ip_references := b, correlated_ips := inter }

/-! ## Validation against desired EgressIP assignments -/

/-- The relevant slice of the context dict built by _get_egressip_context. -/
structure EgressipContext where
  available : Bool
  error : String
  total_assigned_ips : List String
  deriving DecidableEq

structure ValidationSummary where
  total_assigned_egressips : Nat
  total_snat_external_ips : Nat
  missing_rules_count : Nat
  unexpected_rules_count : Nat
  validation_passed : Bool
  deriving DecidableEq, Repr

structure EgressipValidation where
  validation_possible : Bool
  missing_snat_rules : Finset String
  unexpected_snat_rules : Finset String
  validation_summary : Option ValidationSummary
  error : Option String
  deriving DecidableEq

/-- _validate_rules_against_egressips.  The lrp_rules parameter is
accepted and ignored exactly as in the source. -/
def validateRulesAgainstEgressips (snatRules : List SnatRule) (_lrpRules : List LrpRule)
    (ctx : EgressipContext) : EgressipValidation :=
  if ctx.available = false then
    { validation_possible := false, missing_snat_rules := ∅, unexpected_snat_rules := ∅
      validation_summary := none, error := some ctx.error }
  else
    let assigned := ctx.total_assigned_ips.toFinset
    let e := snatRelevantExternalIps snatRules
    let missing := assigned \ e
    let unexpected := e \ assigned
    { validation_possible := true
      missing_snat_rules := missing
      unexpected_snat_rules := unexpected
      validation_summary := some
        { total_assigned_egressips := assigned.card
          total_snat_external_ips := e.card
          missing_rules_count := missing.card
          unexpected_rules_count := unexpected.card
          validation_passed := missing.card == 0 && unexpected.card == 0 }
      error := none }

/-! ## Multi-node comparison (MultiNodeComparator) -/

/-- One entry of the inconsistencies list built by
_identify_egressip_inconsistencies. -/
inductive Inconsistency where
  | rule_count_mismatch (details : List (String × Nat × Nat))
  | missing_snat_ips (node : String) (missing : Finset String)
  deriving DecidableEq

/-- _compare_egressip_rule_content restricted to the snat_external_ips
field it extracts per node from each successful node analysis (the
external_ips list of _analyze_egressip_snat_rules). -/
def compareEgressipRuleContent (nodes : List (String × List SnatRule)) :
    List (String × Finset String) :=
  nodes.map (fun p => (p.1, analyzeSnatExternalIps p.2))

/-- Union of per-node SNAT external-IP sets, as accumulated by the
all_snat_ips.update loop. -/
def allSnatIpsUnion (content : List (String × Finset String)) : Finset String :=
  content.foldl (fun acc p => acc ∪ p.2) ∅

/-- _identify_egressip_inconsistencies over the rule-count and the
rule-content comparisons.  The count comparison stores the
(snat_rules, lrp_rules) count pair per node; the stringified-dict
distinctness test of the source is equality of those pairs. -/
def identifyEgressipInconsistencies (ruleCounts : List (String × Nat × Nat))
    (content : List (String × Finset String)) : List Inconsistency :=
  let countPart : List Inconsistency :=
    if 1 < ((ruleCounts.map (fun p => p.2)).dedup).length then
      [Inconsistency.rule_count_mismatch ruleCounts]
    else []
  let contentPart : List Inconsistency :=
    if 1 < content.length then
      let allIps := allSnatIpsUnion content
      content.filterMap (fun p =>
        let missing := allIps \ p.2
        if missing = ∅ then none else some (Inconsistency.missing_snat_ips p.1 missing))
    else []
  countPart ++ contentPart

/-! ## Snapshot hashing and monitoring (SnapshotMonitor) -/

/-- Modelled from the runtime behaviour the source relies on:
_take_egressip_rule_snapshot hashes with CPython's builtin hash() on str,
which is a salted hash keyed by the per-process PYTHONHASHSEED.  The model
makes that seed an explicit first argument; any fixed seed gives a
deterministic function, and distinct seeds model distinct process runs. -/
def pythonStrHash (seed : Nat) (s : String) : Nat :=
  s.toList.foldl (fun a c => (a * 131 + c.toNat + 1) % 1000000007) (seed % 1000000007)

/-- Python ascending sort of a list of strings. -/
def sortStrings (l : List String) : List String :=
  l.insertionSort (fun a b => a ≤ b)

def joinSep (sep : String) : List String → String
  | [] => ""
  | [s] => s
  | s :: rest => s ++ sep ++ joinSep sep rest

/-- Python str() of a list of strings, as concatenated single-quoted
items (quote escaping inside items is not modelled; no rule line in this
development contains a quote). -/
def pyStrListRepr (l : List String) : String :=
  "[" ++ joinSep ", " (l.map (fun s => "\x27" ++ s ++ "\x27")) ++ "]"

/-- hash(str(sorted([... raw rule lines ...]))) as computed per rule kind
by _take_egressip_rule_snapshot, under a given process hash seed. -/
def snapshotLinesHash (seed : Nat) (lines : List String) : Nat :=
  pythonStrHash seed (pyStrListRepr (sortStrings lines))

/-- Snapshot record of _take_egressip_rule_snapshot. -/
structure EgressipSnapshot where
  timestamp : String
  snat_count : Nat
  lrp_count : Nat
  egressip_snat_count : Nat
  egressip_lrp_count : Nat
  snat_rules_hash : Nat
  lrp_rules_hash : Nat
  deriving DecidableEq, Repr

/-- _take_egressip_rule_snapshot over already fetched and parsed rules,
under a given process hash seed and timestamp. -/
def takeEgressipRuleSnapshot (seed : Nat) (ts : String) (snatRules : List SnatRule)
    (lrpRules : List LrpRule) : EgressipSnapshot :=
  { timestamp := ts
    snat_count := snatRules.length
    lrp_count := lrpRules.length
    egressip_snat_count := snatRules.countP (fun r => r.egressip_related)
    egressip_lrp_count := lrpRules.countP (fun r => r.egressip_related)
    snat_rules_hash := snapshotLinesHash seed (snatRules.map (fun r => r.raw_rule))
    lrp_rules_hash := snapshotLinesHash seed (lrpRules.map (fun r => r.raw_rule)) }

/-- Top-level result of monitor_egressip_rule_changes.  The except branch
of the source builds a dict with only status, error, node_name and
timestamp, so on the error path every other field is none. -/
structure MonitorResult where
  status : String
  error : Option String
  node_name : String
  monitoring_duration : Option Nat
  snapshots_taken : Option Nat
  detailed_snapshots : Option (List EgressipSnapshot)
  deriving DecidableEq, Repr

/-- monitor_egressip_rule_changes, with snapshot taking abstracted as a
function from the sample index to the snapshot obtained.  The source
takes an initial snapshot, computes check_interval = min(30,
duration_seconds // 10), and then evaluates duration_seconds //
check_interval: when the interval is 0 that division raises
ZeroDivisionError, which the enclosing except converts into the error
record — discarding the snapshots list that already holds the initial
snapshot. -/
def monitorEgressipRuleChanges (snap : Nat → EgressipSnapshot) (nodeName : String)
    (durationSeconds : Nat) : MonitorResult :=
  let initial := snap 0
  let snapshots := [initial]
  let checkInterval := min 30 (durationSeconds / 10)
  if checkInterval = 0 then
    { status := "error"
      error := some "integer division or modulo by zero"
      node_name := nodeName
      monitoring_duration := none
      snapshots_taken := none
      detailed_snapshots := none }
  else
    let checksRemaining := durationSeconds / checkInterval
    let allSnaps := snapshots ++ (List.range checksRemaining).map (fun i => snap (i + 1))
    { status := "success"
      error := none
      node_name := nodeName
      monitoring_duration := some durationSeconds
      snapshots_taken := some allSnaps.length
      detailed_snapshots := some allSnaps }

/-! ## Trend computation (TrendStore, egressip_metrics_collector.py) -/

/-- _simple_trend of the metrics collector; Python float arithmetic is
modelled by exact rationals. -/
def simpleTrend (values : List ℚ) : String :=
  if values.length < 2 then "insufficient_data"
  else
    let midPoint := values.length / 2
    let firstHalfAvg : ℚ :=
      if 0 < midPoint then (values.take midPoint).sum / (midPoint : ℚ) else 0
    let secondHalfAvg : ℚ := (values.drop midPoint).sum / ((values.length - midPoint : ℕ) : ℚ)
    let diffPercent : ℚ :=
      if firstHalfAvg > 0 then (secondHalfAvg - firstHalfAvg) / firstHalfAvg * 100 else 0
    if diffPercent > 10 then "increasing"
    else if diffPercent < -10 then "decreasing"
    else "stable"

/-- Modelled from the amended specification wording for comparison with
simpleTrend: split at floor(len/2) with the extra element of an
odd-length series in the second half; when the first-half mean is
positive, classify by the percent change of the halves, and otherwise
(including a zero or negative first-half mean) report stable; fewer than
two points is insufficient data. -/
def simpleTrendSpec (values : List ℚ) : String :=
  if values.length < 2 then "insufficient_data"
  else
    let firstHalf := values.take (values.length / 2)
    let secondHalf := values.drop (values.length / 2)
    let m1 : ℚ := firstHalf.sum / (firstHalf.length : ℚ)
    let m2 : ℚ := secondHalf.sum / (secondHalf.length : ℚ)
    if m1 > 0 then
      let percentChange := (m2 - m1) / m1 * 100
      if percentChange > 10 then "increasing"
      else if percentChange < -10 then "decreasing"
      else "stable"
    else "stable"

/-! ## Concrete fixtures used by witnesses -/

/-- Scenario-A assignment context: one declared EgressIP 10.0.0.5. -/
def ctxScenarioA : EgressipContext :=
  { available := true, error := "", total_assigned_ips := ["10.0.0.5"] }

/-- Scenario-C node1 rules: NAT IPs 10.0.0.5 only. -/
def rulesScenarioC1 : List SnatRule :=
  [parseEgressipSnatRule "snat 10.0.0.5 192.168.1.10 k8s-node1"]

/-- Scenario-C node2 rules: NAT IPs 10.0.0.5 and 10.0.0.6. -/
def rulesScenarioC2 : List SnatRule :=
  [parseEgressipSnatRule "snat 10.0.0.5 192.168.1.10 k8s-node2",
   parseEgressipSnatRule "snat 10.0.0.6 192.168.1.11 k8s-node2"]

/-- Scenario-C per-node rule collection. -/
def nodesScenarioC : List (String × List SnatRule) :=
  [("node1", rulesScenarioC1), ("node2", rulesScenarioC2)]

/-! ## Helper lemmas -/

theorem dropWhile_head_false {α : Type} (p : α → Bool) (l : List α) (c : α) (cs : List α)
    (h : l.dropWhile p = c :: cs) : p c = false := by
  induction l with
  | nil => simp [List.dropWhile] at h
  | cons a t ih =>
    rw [List.dropWhile_cons] at h
    by_cases hp : p a
    · rw [if_pos hp] at h
      exact ih h
    · rw [if_neg hp] at h
      cases h
      simp only [Bool.not_eq_true] at hp
      exact hp

theorem stringMk_cons_ne_empty (c : Char) (l : List Char) : String.mk (c :: l) ≠ "" := by
  intro h
  have hd := congrArg String.data h
  simp at hd

theorem pySplitWsMax2_three (line : String) (h3 : 3 ≤ (pySplitWsMax2 line).length) :
    ∃ t1 t2 t3, pySplitWsMax2 line = [t1, t2, t3] ∧ t1 ≠ "" := by
  simp only [pySplitWsMax2] at h3 ⊢
  split_ifs at h3 ⊢ with h0 h1 h2
  any_goals simp at h3
  refine ⟨_, _, _, rfl, ?_⟩
  rcases hcs : trimChars line.data with _ | ⟨c, cs⟩
  · exact absurd hcs h0
  · have hc : Char.isWhitespace c = false := dropWhile_head_false _ _ _ _ hcs
    rw [List.takeWhile_cons, if_pos (by simp [notWsChar, hc])]
    exact stringMk_cons_ne_empty _ _

theorem sortStrings_congr_of_perm (l1 l2 : List String) (h : l1.Perm l2) :
    sortStrings l1 = sortStrings l2 := by
  refine List.eq_of_perm_of_sorted ?_
      (List.sorted_insertionSort _ l1) (List.sorted_insertionSort _ l2)
  exact (List.perm_insertionSort _ l1).trans (h.trans (List.perm_insertionSort _ l2).symm)

/-! ## Claim theorems -/

/-- C9: a SNAT rule line with fewer than 4 whitespace tokens, or whose
first token is not snat case-insensitively, parses to a record with
parsed_successfully = false whose raw_rule preserves the input verbatim.
The embedded parser is a total function, so no input line can raise. -/
theorem snat_parse_failure_preserves_raw (line : String)
    (h : (pySplitWs line).length < 4 ∨ pyLower ((pySplitWs line).headD "") ≠ "snat") :
    (parseEgressipSnatRule line).parsed_successfully = false ∧
      (parseEgressipSnatRule line).raw_rule = line := by
  unfold parseEgressipSnatRule
  rw [if_neg]
  · exact ⟨rfl, rfl⟩
  · rintro ⟨h1, h2⟩
    rcases h with h | h
    · omega
    · exact h h2

/-- Witness for C9 at the 3-token line "snat 10.0.0.5". -/
theorem snat_parse_failure_preserves_raw_witness :
    (parseEgressipSnatRule "snat 10.0.0.5").parsed_successfully = false ∧
      (parseEgressipSnatRule "snat 10.0.0.5").raw_rule = "snat 10.0.0.5" :=
  snat_parse_failure_preserves_raw "snat 10.0.0.5" (Or.inl (by decide))

/-- C3 counterexample: the LRP line "abc def ghi" has 3 segments and a
priority that does not parse as an integer, yet the parser returns
parsed_successfully = true, contradicting the claimed parse_success=false. -/
theorem lrp_parser_accepts_non_integer_priority :
    pyParseInt "abc" = none ∧
      (parseEgressipLrpRule "abc def ghi").parsed_successfully = true ∧
      (parseEgressipLrpRule "abc def ghi").raw_rule = "abc def ghi" := by
  refine ⟨by decide, by decide, by decide⟩

/-- C3 amended: for an LRP line with at least 3 segments whose first
segment does not parse as an integer, the parser returns
parsed_successfully = true with the raw line retained, and the integer
check is instead performed by _analyze_egressip_lrp_rules, which records
an Invalid-priority issue. -/
theorem lrp_parse_success_despite_bad_priority (line : String)
    (h3 : 3 ≤ (pySplitWsMax2 line).length)
    (hint : pyParseInt ((pySplitWsMax2 line).headD "") = none) :
    (parseEgressipLrpRule line).parsed_successfully = true ∧
      (parseEgressipLrpRule line).raw_rule = line ∧
      "Invalid priority: " ++ (pySplitWsMax2 line).headD "" ∈
        (analyzeEgressipLrpRules [parseEgressipLrpRule line]).potential_issues := by
  obtain ⟨t1, t2, t3, hsplit, ht1⟩ := pySplitWsMax2_three line h3
  have hp : parseEgressipLrpRule line =
      { type := "lrp", priority := t1, matchField := t2, action := t3, raw_rule := line
        parsed_successfully := true, egressip_related := isEgressipRelatedLrp line } := by
    simp only [parseEgressipLrpRule, hsplit]
    norm_num
  rw [hsplit] at hint
  simp only [List.headD] at hint ⊢
  rw [hsplit]
  refine ⟨by rw [hp], by rw [hp], ?_⟩
  simp only [analyzeEgressipLrpRules, List.foldl, hp, lrpAnalysisStep]
  simp only [if_pos rfl, lrpPriorityStep, lrpActionStep]
  rw [if_pos ht1, hint]
  by_cases ha : t3 ≠ ""
  · rw [if_pos ha]
    simp
  · rw [if_neg ha]
    simp

/-- Witness for C3 amended at the line "99x ip4.src==10.1.1.1 drop". -/
theorem lrp_parse_success_despite_bad_priority_witness :
    (parseEgressipLrpRule "99x ip4.src==10.1.1.1 drop").parsed_successfully = true ∧
      (parseEgressipLrpRule "99x ip4.src==10.1.1.1 drop").raw_rule =
        "99x ip4.src==10.1.1.1 drop" ∧
      "Invalid priority: " ++ (pySplitWsMax2 "99x ip4.src==10.1.1.1 drop").headD "" ∈
        (analyzeEgressipLrpRules
            [parseEgressipLrpRule "99x ip4.src==10.1.1.1 drop"]).potential_issues :=
  lrp_parse_success_despite_bad_priority "99x ip4.src==10.1.1.1 drop" (by decide) (by decide)

/-- C1 counterexample: with both rule lists empty, both relevant-IP sets
are empty, yet the consistency check reports the numeric score 0 (the
dict field is initialised to 0.0 and never replaced) and the label
"unknown" — there is no distinguished "undetermined" score value. -/
theorem consistency_empty_reports_zero_score :
    (checkEgressipRuleConsistency [] []).consistency_score = 0 ∧
      (checkEgressipRuleConsistency [] []).snat_lrp_correlation = "unknown" := by
  refine ⟨by decide, by decide⟩

/-- C1 amended: when either relevant-IP set is empty the consistency
score remains the number 0 (not a distinguished undetermined value) and
the correlation label is the string "unknown", which is none of
good/moderate/poor; no issue is emitted. -/
theorem consistency_label_unknown_when_empty (snatRules : List SnatRule)
    (lrpRules : List LrpRule)
    (h : snatRelevantExternalIps snatRules = ∅ ∨ lrpIpReferences lrpRules = ∅) :
    (checkEgressipRuleConsistency snatRules lrpRules).consistency_score = 0 ∧
      (checkEgressipRuleConsistency snatRules lrpRules).snat_lrp_correlation = "unknown" ∧
      (checkEgressipRuleConsistency snatRules lrpRules).snat_lrp_correlation ≠ "good" ∧
      (checkEgressipRuleConsistency snatRules lrpRules).snat_lrp_correlation ≠ "moderate" ∧
      (checkEgressipRuleConsistency snatRules lrpRules).snat_lrp_correlation ≠ "poor" ∧
      (checkEgressipRuleConsistency snatRules lrpRules).issues_found = [] := by
  have hn : ¬((snatRelevantExternalIps snatRules).Nonempty ∧ (lrpIpReferences lrpRules).Nonempty) := by
    rcases h with h | h <;> rw [h] <;> simp
  simp only [checkEgressipRuleConsistency]
  rw [if_neg hn]
  exact ⟨rfl, rfl, show ("unknown" : String) ≠ "good" by decide,
    show ("unknown" : String) ≠ "moderate" by decide,
    show ("unknown" : String) ≠ "poor" by decide, rfl⟩

/-- Witness for C1 amended: a policy-only input (Scenario B shape). -/
theorem consistency_label_unknown_when_empty_witness :
    (checkEgressipRuleConsistency [] [parseEgressipLrpRule "100 ip4.src==10.0.0.1 drop"]).consistency_score = 0 ∧
      (checkEgressipRuleConsistency [] [parseEgressipLrpRule "100 ip4.src==10.0.0.1 drop"]).snat_lrp_correlation = "unknown" ∧
      (checkEgressipRuleConsistency [] [parseEgressipLrpRule "100 ip4.src==10.0.0.1 drop"]).snat_lrp_correlation ≠ "good" ∧
      (checkEgressipRuleConsistency [] [parseEgressipLrpRule "100 ip4.src==10.0.0.1 drop"]).snat_lrp_correlation ≠ "moderate" ∧
      (checkEgressipRuleConsistency [] [parseEgressipLrpRule "100 ip4.src==10.0.0.1 drop"]).snat_lrp_correlation ≠ "poor" ∧
      (checkEgressipRuleConsistency [] [parseEgressipLrpRule "100 ip4.src==10.0.0.1 drop"]).issues_found = [] :=
  consistency_label_unknown_when_empty [] [parseEgressipLrpRule "100 ip4.src==10.0.0.1 drop"]
    (Or.inl (by decide))

/-- C2 failing part: the snapshot hash is computed with the per-process
salted string hash, so the same multiset of rule lines hashes differently
under two different process hash seeds; here the same single-line list
under seeds 0 and 1. -/
theorem snapshot_hash_differs_across_seeds :
    snapshotLinesHash 0 ["snat 10.0.0.5 192.168.1.10 port1"] ≠
      snapshotLinesHash 1 ["snat 10.0.0.5 192.168.1.10 port1"] := by
  decide

/-- C2 amended: within one process run (a fixed hash seed) the snapshot
hashes over raw rule texts are invariant under any permutation of the
input rule lists, and identical multisets give identical hashes; the
timestamp plays no role. -/
theorem snapshot_hash_perm_invariant (seed : Nat) (ts1 ts2 : String)
    (s1 s2 : List SnatRule) (l1 l2 : List LrpRule)
    (hs : (s1.map SnatRule.raw_rule).Perm (s2.map SnatRule.raw_rule))
    (hl : (l1.map LrpRule.raw_rule).Perm (l2.map LrpRule.raw_rule)) :
    (takeEgressipRuleSnapshot seed ts1 s1 l1).snat_rules_hash =
        (takeEgressipRuleSnapshot seed ts2 s2 l2).snat_rules_hash ∧
      (takeEgressipRuleSnapshot seed ts1 s1 l1).lrp_rules_hash =
        (takeEgressipRuleSnapshot seed ts2 s2 l2).lrp_rules_hash := by
  simp only [takeEgressipRuleSnapshot, snapshotLinesHash]
  rw [sortStrings_congr_of_perm _ _ hs, sortStrings_congr_of_perm _ _ hl]
  exact ⟨rfl, rfl⟩

/-- Witness for C2 amended at two-element permuted rule lists. -/
theorem snapshot_hash_perm_invariant_witness :
    (takeEgressipRuleSnapshot 7 "t1"
        [parseEgressipSnatRule "snat 10.0.0.5 192.168.1.10 port1",
         parseEgressipSnatRule "snat 10.0.0.6 192.168.1.11 port2"] []).snat_rules_hash =
      (takeEgressipRuleSnapshot 7 "t2"
          [parseEgressipSnatRule "snat 10.0.0.6 192.168.1.11 port2",
           parseEgressipSnatRule "snat 10.0.0.5 192.168.1.10 port1"] []).snat_rules_hash ∧
    (takeEgressipRuleSnapshot 7 "t1"
        [parseEgressipSnatRule "snat 10.0.0.5 192.168.1.10 port1",
         parseEgressipSnatRule "snat 10.0.0.6 192.168.1.11 port2"] []).lrp_rules_hash =
      (takeEgressipRuleSnapshot 7 "t2"
          [parseEgressipSnatRule "snat 10.0.0.6 192.168.1.11 port2",
           parseEgressipSnatRule "snat 10.0.0.5 192.168.1.10 port1"] []).lrp_rules_hash :=
  snapshot_hash_perm_invariant 7 "t1" "t2" _ _ _ _ (by decide) (by decide)

/-- C4 counterexample: the monitoring session over duration 5 fails (the
computed check interval is 0 and the integer division raises), one
initial snapshot had already been taken, and the error result returned to
the caller contains no snapshots at all. -/
theorem monitor_failure_loses_partial_results :
    (monitorEgressipRuleChanges (fun _ => takeEgressipRuleSnapshot 0 "t0" [] [])
        "node1" 5).status = "error" ∧
      (monitorEgressipRuleChanges (fun _ => takeEgressipRuleSnapshot 0 "t0" [] [])
          "node1" 5).detailed_snapshots = none ∧
      (monitorEgressipRuleChanges (fun _ => takeEgressipRuleSnapshot 0 "t0" [] [])
          "node1" 5).snapshots_taken = none := by
  refine ⟨by decide, by decide, by decide⟩

/-- C4 amended: whenever the monitoring session fails, the error result
carries only status, error, node and timestamp — snapshots already taken
are discarded, never returned to the caller. -/
theorem monitor_error_result_has_no_snapshots (snap : Nat → EgressipSnapshot)
    (nodeName : String) (durationSeconds : Nat)
    (h : (monitorEgressipRuleChanges snap nodeName durationSeconds).status = "error") :
    (monitorEgressipRuleChanges snap nodeName durationSeconds).detailed_snapshots = none ∧
      (monitorEgressipRuleChanges snap nodeName durationSeconds).snapshots_taken = none := by
  simp only [monitorEgressipRuleChanges] at h ⊢
  by_cases hc : min 30 (durationSeconds / 10) = 0
  · rw [if_pos hc]
    exact ⟨rfl, rfl⟩
  · rw [if_neg hc] at h
    exact absurd (show ("success" : String) = "error" from h) (by decide)

/-- Witness for C4 amended at duration 3. -/
theorem monitor_error_result_has_no_snapshots_witness :
    (monitorEgressipRuleChanges (fun _ => takeEgressipRuleSnapshot 0 "t0" [] [])
        "node1" 3).detailed_snapshots = none ∧
      (monitorEgressipRuleChanges (fun _ => takeEgressipRuleSnapshot 0 "t0" [] [])
          "node1" 3).snapshots_taken = none :=
  monitor_error_result_has_no_snapshots (fun _ => takeEgressipRuleSnapshot 0 "t0" [] [])
    "node1" 3 (by decide)

/-- C10: for any non-negative duration strictly below 10 the check
interval min(30, duration_seconds // 10) is 0, the integer division by it
raises ZeroDivisionError, and the caught exception yields a result with
status error and no snapshots, although the initial snapshot had already
been taken. -/
theorem monitor_short_duration_division_error (snap : Nat → EgressipSnapshot)
    (nodeName : String) (durationSeconds : Nat) (h : durationSeconds < 10) :
    min 30 (durationSeconds / 10) = 0 ∧
      (monitorEgressipRuleChanges snap nodeName durationSeconds).status = "error" ∧
      (monitorEgressipRuleChanges snap nodeName durationSeconds).error =
        some "integer division or modulo by zero" ∧
      (monitorEgressipRuleChanges snap nodeName durationSeconds).detailed_snapshots = none ∧
      (monitorEgressipRuleChanges snap nodeName durationSeconds).snapshots_taken = none := by
  have hc : min 30 (durationSeconds / 10) = 0 := by
    rw [Nat.div_eq_of_lt h]
    rfl
  simp only [monitorEgressipRuleChanges]
  rw [if_pos hc]
  exact ⟨hc, rfl, rfl, rfl, rfl⟩

/-- Witness for C10 at duration 5. -/
theorem monitor_short_duration_division_error_witness :
    min 30 (5 / 10) = 0 ∧
      (monitorEgressipRuleChanges (fun _ => takeEgressipRuleSnapshot 0 "t0" [] [])
          "node2" 5).status = "error" ∧
      (monitorEgressipRuleChanges (fun _ => takeEgressipRuleSnapshot 0 "t0" [] [])
          "node2" 5).error = some "integer division or modulo by zero" ∧
      (monitorEgressipRuleChanges (fun _ => takeEgressipRuleSnapshot 0 "t0" [] [])
          "node2" 5).detailed_snapshots = none ∧
      (monitorEgressipRuleChanges (fun _ => takeEgressipRuleSnapshot 0 "t0" [] [])
          "node2" 5).snapshots_taken = none :=
  monitor_short_duration_division_error (fun _ => takeEgressipRuleSnapshot 0 "t0" [] [])
    "node2" 5 (by decide)

/-- C8 counterexample: on the series [-1, -2] the percent change between
the halves' means, ((-2) - (-1)) / (-1) * 100 = 100, exceeds +10, so the
claimed rule demands "increasing", but _simple_trend returns "stable"
because it defines the percent change as 0 whenever the first-half mean
is not positive. -/
theorem simple_trend_negative_baseline_stable :
    simpleTrend [-1, -2] = "stable" ∧ (((-2 : ℚ) - (-1)) / (-1)) * 100 > 10 := by
  constructor
  · norm_num [simpleTrend, List.take, List.drop, List.sum_cons, List.sum_nil]
  · norm_num

/-- C8 amended: _simple_trend returns insufficient_data below 2 points
and otherwise splits at floor(len/2) (extra element in the second half),
classifying by the percent change of the halves' means with the +10 and
-10 thresholds only when the first-half mean is positive, and stable
otherwise; on [10,10,10,20,20] it returns increasing, and as a pure
function it is deterministic on identical series. -/
theorem simple_trend_matches_gated_spec :
    (∀ values : List ℚ, simpleTrend values = simpleTrendSpec values) ∧
      simpleTrend [10, 10, 10, 20, 20] = "increasing" := by
  constructor
  · intro values
    simp only [simpleTrend, simpleTrendSpec]
    by_cases hlen : values.length < 2
    · rw [if_pos hlen, if_pos hlen]
    · rw [if_neg hlen, if_neg hlen]
      have hmid : 0 < values.length / 2 := by omega
      have htake : (values.take (values.length / 2)).length = values.length / 2 := by
        rw [List.length_take]
        omega
      have hdrop : (values.drop (values.length / 2)).length =
          values.length - values.length / 2 := List.length_drop _ _
      rw [if_pos hmid, htake, hdrop]
      by_cases hm : (values.take (values.length / 2)).sum / ((values.length / 2 : ℕ) : ℚ) > 0
      · rw [if_pos hm, if_pos hm]
      · rw [if_neg hm, if_neg hm]
        norm_num
  · norm_num [simpleTrend, List.take, List.drop, List.sum_cons, List.sum_nil]

/-- C5: with both relevant-IP sets non-empty, the consistency score is
exactly the intersection size over the NAT-side size, lies in the unit
interval, and the correlation label is good above 4/5, moderate in
(1/2, 4/5], and otherwise poor together with the low-correlation issue
string.  The Python float literals 0.8 and 0.5 are modelled by the exact
rationals 4/5 and 1/2. -/
theorem consistency_score_formula_and_labels (snatRules : List SnatRule)
    (lrpRules : List LrpRule)
    (hA : (snatRelevantExternalIps snatRules).Nonempty)
    (hB : (lrpIpReferences lrpRules).Nonempty) :
    (checkEgressipRuleConsistency snatRules lrpRules).consistency_score =
        ((snatRelevantExternalIps snatRules ∩ lrpIpReferences lrpRules).card : ℚ) /
          ((snatRelevantExternalIps snatRules).card : ℚ) ∧
      0 ≤ (checkEgressipRuleConsistency snatRules lrpRules).consistency_score ∧
      (checkEgressipRuleConsistency snatRules lrpRules).consistency_score ≤ 1 ∧
      (4 / 5 < (checkEgressipRuleConsistency snatRules lrpRules).consistency_score →
        (checkEgressipRuleConsistency snatRules lrpRules).snat_lrp_correlation = "good" ∧
          (checkEgressipRuleConsistency snatRules lrpRules).issues_found = []) ∧
      (1 / 2 < (checkEgressipRuleConsistency snatRules lrpRules).consistency_score ∧
          (checkEgressipRuleConsistency snatRules lrpRules).consistency_score ≤ 4 / 5 →
        (checkEgressipRuleConsistency snatRules lrpRules).snat_lrp_correlation = "moderate" ∧
          (checkEgressipRuleConsistency snatRules lrpRules).issues_found = []) ∧
      ((checkEgressipRuleConsistency snatRules lrpRules).consistency_score ≤ 1 / 2 →
        (checkEgressipRuleConsistency snatRules lrpRules).snat_lrp_correlation = "poor" ∧
          (checkEgressipRuleConsistency snatRules lrpRules).issues_found =
            ["Low correlation between EgressIP SNAT and LRP rules"]) := by
  have hApos : (0 : ℚ) < ((snatRelevantExternalIps snatRules).card : ℚ) := by
    exact_mod_cast Finset.card_pos.mpr hA
  have hcardle : (snatRelevantExternalIps snatRules ∩ lrpIpReferences lrpRules).card ≤
      (snatRelevantExternalIps snatRules).card :=
    Finset.card_le_card Finset.inter_subset_left
  have hq0 : (0 : ℚ) ≤
      ((snatRelevantExternalIps snatRules ∩ lrpIpReferences lrpRules).card : ℚ) /
        ((snatRelevantExternalIps snatRules).card : ℚ) := by positivity
  have hq1 : ((snatRelevantExternalIps snatRules ∩ lrpIpReferences lrpRules).card : ℚ) /
      ((snatRelevantExternalIps snatRules).card : ℚ) ≤ 1 := by
    rw [div_le_one hApos]
    exact_mod_cast hcardle
  simp only [checkEgressipRuleConsistency]
  rw [if_pos ⟨hA, hB⟩]
  split_ifs with h1 h2
  · exact ⟨rfl, hq0, hq1, fun _ => ⟨rfl, rfl⟩,
      fun hmod => absurd h1 (by simp only [not_lt]; exact hmod.2),
      fun hpoor => absurd hpoor (by simp only [not_le]; linarith)⟩
  · exact ⟨rfl, hq0, hq1, fun hgood => absurd hgood (by simpa using h1),
      fun _ => ⟨rfl, rfl⟩,
      fun hpoor => absurd hpoor (by simp only [not_le]; exact h2)⟩
  · exact ⟨rfl, hq0, hq1, fun hgood => absurd hgood (by simpa using h1),
      fun hmod => absurd hmod.1 (by simpa using h2), fun _ => ⟨rfl, rfl⟩⟩

/-- Witness for C5 at the Scenario-A rule pair, where the score is 1 and
the label is good. -/
theorem consistency_score_formula_and_labels_witness :
    (checkEgressipRuleConsistency
          [parseEgressipSnatRule "snat 10.0.0.5 192.168.1.10 port1"]
          [parseEgressipLrpRule "100 ip4.src==192.168.1.10 reroute 10.0.0.5"]).consistency_score =
        ((snatRelevantExternalIps [parseEgressipSnatRule "snat 10.0.0.5 192.168.1.10 port1"] ∩
              lrpIpReferences
                [parseEgressipLrpRule "100 ip4.src==192.168.1.10 reroute 10.0.0.5"]).card : ℚ) /
          ((snatRelevantExternalIps
              [parseEgressipSnatRule "snat 10.0.0.5 192.168.1.10 port1"]).card : ℚ) ∧
      0 ≤ (checkEgressipRuleConsistency
          [parseEgressipSnatRule "snat 10.0.0.5 192.168.1.10 port1"]
          [parseEgressipLrpRule "100 ip4.src==192.168.1.10 reroute 10.0.0.5"]).consistency_score ∧
      (checkEgressipRuleConsistency
          [parseEgressipSnatRule "snat 10.0.0.5 192.168.1.10 port1"]
          [parseEgressipLrpRule "100 ip4.src==192.168.1.10 reroute 10.0.0.5"]).consistency_score ≤ 1 ∧
      (4 / 5 < (checkEgressipRuleConsistency
          [parseEgressipSnatRule "snat 10.0.0.5 192.168.1.10 port1"]
          [parseEgressipLrpRule "100 ip4.src==192.168.1.10 reroute 10.0.0.5"]).consistency_score →
        (checkEgressipRuleConsistency
            [parseEgressipSnatRule "snat 10.0.0.5 192.168.1.10 port1"]
            [parseEgressipLrpRule "100 ip4.src==192.168.1.10 reroute 10.0.0.5"]).snat_lrp_correlation =
            "good" ∧
          (checkEgressipRuleConsistency
              [parseEgressipSnatRule "snat 10.0.0.5 192.168.1.10 port1"]
              [parseEgressipLrpRule "100 ip4.src==192.168.1.10 reroute 10.0.0.5"]).issues_found = []) ∧
      (1 / 2 < (checkEgressipRuleConsistency
            [parseEgressipSnatRule "snat 10.0.0.5 192.168.1.10 port1"]
            [parseEgressipLrpRule "100 ip4.src==192.168.1.10 reroute 10.0.0.5"]).consistency_score ∧
          (checkEgressipRuleConsistency
              [parseEgressipSnatRule "snat 10.0.0.5 192.168.1.10 port1"]
              [parseEgressipLrpRule "100 ip4.src==192.168.1.10 reroute 10.0.0.5"]).consistency_score ≤
            4 / 5 →
        (checkEgressipRuleConsistency
            [parseEgressipSnatRule "snat 10.0.0.5 192.168.1.10 port1"]
            [parseEgressipLrpRule "100 ip4.src==192.168.1.10 reroute 10.0.0.5"]).snat_lrp_correlation =
            "moderate" ∧
          (checkEgressipRuleConsistency
              [parseEgressipSnatRule "snat 10.0.0.5 192.168.1.10 port1"]
              [parseEgressipLrpRule "100 ip4.src==192.168.1.10 reroute 10.0.0.5"]).issues_found = []) ∧
      ((checkEgressipRuleConsistency
            [parseEgressipSnatRule "snat 10.0.0.5 192.168.1.10 port1"]
            [parseEgressipLrpRule "100 ip4.src==192.168.1.10 reroute 10.0.0.5"]).consistency_score ≤
            1 / 2 →
        (checkEgressipRuleConsistency
            [parseEgressipSnatRule "snat 10.0.0.5 192.168.1.10 port1"]
            [parseEgressipLrpRule "100 ip4.src==192.168.1.10 reroute 10.0.0.5"]).snat_lrp_correlation =
            "poor" ∧
          (checkEgressipRuleConsistency
              [parseEgressipSnatRule "snat 10.0.0.5 192.168.1.10 port1"]
              [parseEgressipLrpRule "100 ip4.src==192.168.1.10 reroute 10.0.0.5"]).issues_found =
            ["Low correlation between EgressIP SNAT and LRP rules"]) :=
  consistency_score_formula_and_labels
    [parseEgressipSnatRule "snat 10.0.0.5 192.168.1.10 port1"]
    [parseEgressipLrpRule "100 ip4.src==192.168.1.10 reroute 10.0.0.5"]
    (by decide) (by decide)

/-- Elementwise description of the set A used by the consistency check
and the desired-state validation. -/
theorem mem_snatRelevantExternalIps (rules : List SnatRule) (ip : String) :
    ip ∈ snatRelevantExternalIps rules ↔
      ∃ r ∈ rules, r.parsed_successfully = true ∧ r.egressip_related = true ∧
        r.external_ip = ip ∧ ip ≠ "" := by
  simp only [snatRelevantExternalIps, List.mem_toFinset, List.mem_map, List.mem_filter,
    Bool.and_eq_true, Bool.not_eq_true', beq_eq_false_iff_ne, ne_eq]
  constructor
  · rintro ⟨r, ⟨hr, ⟨hp, hne⟩, hrel⟩, hip⟩
    exact ⟨r, hr, hp, hrel, hip, by rw [← hip]; exact hne⟩
  · rintro ⟨r, hr, hp, hrel, hip, hne⟩
    exact ⟨r, ⟨hr, ⟨hp, by rw [hip]; exact hne⟩, hrel⟩, hip⟩

/-- C7: with the assignment context available, missing is exactly the
declared IPs matched by no relevant successfully parsed NAT rule,
unexpected is exactly the relevant NAT external IPs that are not
declared, and validation_passed holds iff both sets are empty. -/
theorem validate_missing_unexpected_passed (snatRules : List SnatRule)
    (lrpRules : List LrpRule) (ctx : EgressipContext) (hav : ctx.available = true) :
    (∀ ip, ip ∈ (validateRulesAgainstEgressips snatRules lrpRules ctx).missing_snat_rules ↔
        ip ∈ ctx.total_assigned_ips ∧
          ¬∃ r ∈ snatRules, r.parsed_successfully = true ∧ r.egressip_related = true ∧
              r.external_ip = ip ∧ ip ≠ "") ∧
      (∀ ip, ip ∈ (validateRulesAgainstEgressips snatRules lrpRules ctx).unexpected_snat_rules ↔
        (∃ r ∈ snatRules, r.parsed_successfully = true ∧ r.egressip_related = true ∧
            r.external_ip = ip ∧ ip ≠ "") ∧ ip ∉ ctx.total_assigned_ips) ∧
      ∃ s, (validateRulesAgainstEgressips snatRules lrpRules ctx).validation_summary = some s ∧
        (s.validation_passed = true ↔
          (validateRulesAgainstEgressips snatRules lrpRules ctx).missing_snat_rules = ∅ ∧
            (validateRulesAgainstEgressips snatRules lrpRules ctx).unexpected_snat_rules = ∅) := by
  have hnf : ¬ctx.available = false := by rw [hav]; decide
  simp only [validateRulesAgainstEgressips]
  rw [if_neg hnf]
  refine ⟨?_, ?_, ?_⟩
  · intro ip
    rw [Finset.mem_sdiff, List.mem_toFinset, mem_snatRelevantExternalIps]
  · intro ip
    rw [Finset.mem_sdiff, List.mem_toFinset, mem_snatRelevantExternalIps]
  · refine ⟨_, rfl, ?_⟩
    simp only [Bool.and_eq_true, beq_iff_eq, Finset.card_eq_zero]

/-- Witness for C7 at the Scenario-A assignment: declared 10.0.0.5,
matching NAT rule present, so validation passes with empty sets. -/
theorem validate_missing_unexpected_passed_witness :
    (∀ ip, ip ∈ (validateRulesAgainstEgressips
          [parseEgressipSnatRule "snat 10.0.0.5 192.168.1.10 port1"] []
          ctxScenarioA).missing_snat_rules ↔
        ip ∈ ctxScenarioA.total_assigned_ips ∧
          ¬∃ r ∈ [parseEgressipSnatRule "snat 10.0.0.5 192.168.1.10 port1"],
              r.parsed_successfully = true ∧ r.egressip_related = true ∧
                r.external_ip = ip ∧ ip ≠ "") ∧
      (∀ ip, ip ∈ (validateRulesAgainstEgressips
          [parseEgressipSnatRule "snat 10.0.0.5 192.168.1.10 port1"] []
          ctxScenarioA).unexpected_snat_rules ↔
        (∃ r ∈ [parseEgressipSnatRule "snat 10.0.0.5 192.168.1.10 port1"],
            r.parsed_successfully = true ∧ r.egressip_related = true ∧
              r.external_ip = ip ∧ ip ≠ "") ∧
          ip ∉ ctxScenarioA.total_assigned_ips) ∧
      ∃ s, (validateRulesAgainstEgressips
            [parseEgressipSnatRule "snat 10.0.0.5 192.168.1.10 port1"] []
            ctxScenarioA).validation_summary = some s ∧
        (s.validation_passed = true ↔
          (validateRulesAgainstEgressips
              [parseEgressipSnatRule "snat 10.0.0.5 192.168.1.10 port1"] []
              ctxScenarioA).missing_snat_rules = ∅ ∧
            (validateRulesAgainstEgressips
                [parseEgressipSnatRule "snat 10.0.0.5 192.168.1.10 port1"] []
                ctxScenarioA).unexpected_snat_rules = ∅) :=
  validate_missing_unexpected_passed
    [parseEgressipSnatRule "snat 10.0.0.5 192.168.1.10 port1"] [] ctxScenarioA rfl

/-- Elementwise description of the cross-node IP union accumulated by
_identify_egressip_inconsistencies. -/
theorem mem_allSnatIpsUnion (content : List (String × Finset String)) (ip : String) :
    ip ∈ allSnatIpsUnion content ↔ ∃ p ∈ content, ip ∈ p.2 := by
  have hgen : ∀ (l : List (String × Finset String)) (acc : Finset String),
      ip ∈ l.foldl (fun acc p => acc ∪ p.2) acc ↔ ip ∈ acc ∨ ∃ p ∈ l, ip ∈ p.2 := by
    intro l
    induction l with
    | nil => intro acc; simp
    | cons q qs ih =>
      intro acc
      rw [List.foldl_cons, ih]
      simp only [Finset.mem_union, List.mem_cons]
      constructor
      · rintro (⟨h | h⟩ | ⟨p, hp, hip⟩)
        · exact Or.inl h
        · exact Or.inr ⟨q, Or.inl rfl, h⟩
        · exact Or.inr ⟨p, Or.inr hp, hip⟩
      · rintro (h | ⟨p, hp | hp, hip⟩)
        · exact Or.inl (Or.inl h)
        · exact Or.inl (Or.inr (hp ▸ hip))
        · exact Or.inr ⟨p, hp, hip⟩
  rw [allSnatIpsUnion, hgen]
  simp

/-- C6 counterexample: the rule "snat extip logip port1" parses
successfully but is NOT egressip-related, so under the claimed
relevance-filtered union no node would be flagged; the comparator
nonetheless puts its external IP into the union and flags node2 as
missing it. -/
theorem comparator_uses_unfiltered_ips :
    (parseEgressipSnatRule "snat extip logip port1").parsed_successfully = true ∧
      (parseEgressipSnatRule "snat extip logip port1").egressip_related = false ∧
      Inconsistency.missing_snat_ips "node2" {"extip"} ∈
        identifyEgressipInconsistencies []
          (compareEgressipRuleContent
            [("node1", [parseEgressipSnatRule "snat extip logip port1"]), ("node2", [])]) := by
  refine ⟨by decide, by decide, by decide⟩

/-- C6 amended: over more than one node, the comparator takes U to be
the union of each node's successfully parsed NAT external IPs (with no
relevance filtering); a node is flagged with missing set U minus its own
IPs exactly when that difference is non-empty, and under distinct node
names a node whose IP set contains the whole union is never flagged. -/
theorem multi_node_missing_flag_characterisation
    (nodes : List (String × List SnatRule)) (ruleCounts : List (String × Nat × Nat))
    (h2 : 1 < nodes.length) (hnd : (nodes.map Prod.fst).Nodup) :
    (∀ n rules, (n, rules) ∈ nodes →
        allSnatIpsUnion (compareEgressipRuleContent nodes) \ analyzeSnatExternalIps rules ≠ ∅ →
          Inconsistency.missing_snat_ips n
              (allSnatIpsUnion (compareEgressipRuleContent nodes) \
                analyzeSnatExternalIps rules) ∈
            identifyEgressipInconsistencies ruleCounts (compareEgressipRuleContent nodes)) ∧
      (∀ n m, Inconsistency.missing_snat_ips n m ∈
            identifyEgressipInconsistencies ruleCounts (compareEgressipRuleContent nodes) →
          m ≠ ∅ ∧ ∃ rules, (n, rules) ∈ nodes ∧
            m = allSnatIpsUnion (compareEgressipRuleContent nodes) \
              analyzeSnatExternalIps rules) ∧
      (∀ n rules, (n, rules) ∈ nodes →
        allSnatIpsUnion (compareEgressipRuleContent nodes) ⊆ analyzeSnatExternalIps rules →
          ∀ m, Inconsistency.missing_snat_ips n m ∉
            identifyEgressipInconsistencies ruleCounts (compareEgressipRuleContent nodes)) := by
  have hlen : 1 < (compareEgressipRuleContent nodes).length := by
    simpa [compareEgressipRuleContent] using h2
  have hB : ∀ n m, Inconsistency.missing_snat_ips n m ∈
      identifyEgressipInconsistencies ruleCounts (compareEgressipRuleContent nodes) →
      m ≠ ∅ ∧ ∃ rules, (n, rules) ∈ nodes ∧
        m = allSnatIpsUnion (compareEgressipRuleContent nodes) \ analyzeSnatExternalIps rules := by
    intro n m hmem
    simp only [identifyEgressipInconsistencies] at hmem
    rcases List.mem_append.mp hmem with hc | hcont
    · by_cases hrc : 1 < ((ruleCounts.map (fun p => p.2)).dedup).length
      · rw [if_pos hrc] at hc
        simp at hc
      · rw [if_neg hrc] at hc
        simp at hc
    · rw [if_pos hlen, List.mem_filterMap] at hcont
      obtain ⟨p, hp, hfp⟩ := hcont
      by_cases hpe : allSnatIpsUnion (compareEgressipRuleContent nodes) \ p.2 = ∅
      · rw [if_pos hpe] at hfp
        simp at hfp
      · rw [if_neg hpe] at hfp
        simp only [Option.some.injEq, Inconsistency.missing_snat_ips.injEq] at hfp
        obtain ⟨hp1, hp2⟩ := hfp
        simp only [compareEgressipRuleContent, List.mem_map] at hp
        obtain ⟨q, hq, hqe⟩ := hp
        refine ⟨by rw [← hp2]; exact hpe, q.2, ?_, ?_⟩
        · have : q.1 = n := by rw [← hp1, ← hqe]
          rw [← this]
          exact hq
        · rw [← hp2, ← hqe]
  refine ⟨?_, hB, ?_⟩
  · intro n rules hmem hne
    simp only [identifyEgressipInconsistencies]
    apply List.mem_append_right
    rw [if_pos hlen, List.mem_filterMap]
    refine ⟨(n, analyzeSnatExternalIps rules), ?_, ?_⟩
    · simp only [compareEgressipRuleContent, List.mem_map]
      exact ⟨(n, rules), hmem, rfl⟩
    · simp [hne]
  · intro n rules hmem hsub m hflag
    obtain ⟨hne, rules', hmem', hm⟩ := hB n m hflag
    have hpair : (n, rules') = (n, rules) :=
      List.inj_on_of_nodup_map hnd hmem' hmem rfl
    have hrr : rules' = rules := by
      injection hpair
    apply hne
    rw [hm, hrr]
    exact Finset.sdiff_eq_empty_iff_subset.mpr hsub

/-- Witness for C6 amended at Scenario C: node1 is flagged missing
10.0.0.6 and node2, whose IPs contain the whole union, is never
flagged. -/
theorem multi_node_missing_flag_witness :
    allSnatIpsUnion (compareEgressipRuleContent nodesScenarioC) \
        analyzeSnatExternalIps rulesScenarioC1 = {"10.0.0.6"} ∧
      Inconsistency.missing_snat_ips "node1"
          (allSnatIpsUnion (compareEgressipRuleContent nodesScenarioC) \
            analyzeSnatExternalIps rulesScenarioC1) ∈
        identifyEgressipInconsistencies [] (compareEgressipRuleContent nodesScenarioC) ∧
      ∀ m, Inconsistency.missing_snat_ips "node2" m ∉
        identifyEgressipInconsistencies [] (compareEgressipRuleContent nodesScenarioC) := by
  have h := multi_node_missing_flag_characterisation nodesScenarioC [] (by decide) (by decide)
  exact ⟨by decide,
    h.1 "node1" rulesScenarioC1 (by decide) (by decide),
    fun m => h.2.2 "node2" rulesScenarioC2 (by decide) (by decide) m⟩

end EgressIP
